import Mathlib

/-!
Shallow embedding of the gofie portfolio carousel gesture engine
(PortfolioApp in src/unnamed/part_000, lines 603-917), and proofs of the
specified properties.

Modelling conventions:
- JS numbers that hold pixel coordinates, offsets and percentages are
  modelled as Rat; slide indices as Int; millisecond timestamps as Nat.
- The DOM is not modelled; the two style outputs that matter to the spec
  (the track transform translateX percentage and whether the CSS
  transition is enabled) are fields of the state.
- setTimeout callbacks that clear the animation flag are modelled by a
  list of absolute fire times; before any event at time now, every timer
  whose fire time is at most now has fired (each such callback sets
  isAnimating to false).  Timers fire exactly 500 ms after scheduling.
- Event handlers that the source does not register (the slider has no
  touchcancel and no window blur listener) leave the state unchanged.
-/

namespace Gofie

/-- Input modality of a completed gesture: touch (touchend handler,
lines 696-740) or mouse (mouseup handler, lines 783-819). -/
inductive Modality
  | touch
  | mouse
deriving DecidableEq, Repr

/-- Outcome of evaluating a completed gesture at release. -/
inductive Decision
  | advance
  | retreat
  | cancel
deriving DecidableEq, Repr

/-- threshold: 50 in the touchend handler (line 705), 80 in the mouseup
handler (line 788). -/
def commitDistance : Modality → Rat
  | Modality.touch => 50
  | Modality.mouse => 80

/-- minVelocity: 0.3 in the touchend handler (line 707), 0.5 in the
mouseup handler (line 790). -/
def commitVelocity : Modality → Rat
  | Modality.touch => 3 / 10
  | Modality.mouse => 1 / 2

/-- Minimum absolute displacement on the velocity branch: 20 (line 721)
for touch, 30 (line 802) for mouse. -/
def minDisplacement : Modality → Rat
  | Modality.touch => 20
  | Modality.mouse => 30

/-- JS comparison n / d > t for n = |dx| and d = elapsed ms.  When d = 0,
JS gives n / 0 = Infinity for n > 0 (so the comparison is true) and
0 / 0 = NaN (so the comparison is false); Rat division by zero would give
0, hence the explicit case. -/
def velGT (n d t : Rat) : Bool :=
  if d = 0 then decide (n ≠ 0) else decide (n / d > t)

/-- Release decision of the touchend handler (lines 703-731) and mouseup
handler (lines 786-812): shouldChangeSlide is set by the distance check,
else by the velocity-and-minimum-displacement check; direction is -1 when
diffX > 0 (previousSlide) and 1 otherwise (nextSlide). -/
def releaseDecision (m : Modality) (diffX diffTime : Rat) : Decision :=
  if |diffX| > commitDistance m then
    (if diffX > 0 then Decision.retreat else Decision.advance)
  else if velGT |diffX| diffTime (commitVelocity m) = true ∧ |diffX| > minDisplacement m then
    (if diffX > 0 then Decision.retreat else Decision.advance)
  else Decision.cancel

/-- Modelled from the spec: the CommitEvaluator rule of section 4.3,
written following the specification text clause by clause (first match
wins; rule 1 distance, rule 2 velocity with minimum displacement, rule 3
cancel; Advance if dx < 0 else Retreat). -/
def releaseDecisionSpec (m : Modality) (dx dt : Rat) : Decision :=
  if |dx| > commitDistance m then
    (if dx < 0 then Decision.advance else Decision.retreat)
  else if |dx| / dt > commitVelocity m ∧ |dx| > minDisplacement m then
    (if dx < 0 then Decision.advance else Decision.retreat)
  else Decision.cancel

/-- Boundary resistance applied to the raw transform, embedding
lines 681-692 (touch handler, factor 0.3) and lines 768-779 (mouse
handler, factor 0.2); maxTransform = 0 and
minTransform = -(totalSlides - 1) * 100. -/
def resistTransform (factor : Rat) (totalSlides : Int) (newTransform : Rat) : Rat :=
  let maxTransform : Rat := 0
  let minTransform : Rat := -((totalSlides : Rat) - 1) * 100
  if newTransform > maxTransform then
    maxTransform + (newTransform - maxTransform) * factor
  else if newTransform < minTransform then
    minTransform + (newTransform - minTransform) * factor
  else newTransform

/-- JS remainder operator: result has the sign of the dividend.  The
divisor is always the positive slide count here. -/
def jsMod (a b : Int) : Int :=
  if 0 ≤ a then a % b else -((-a) % b)

/-- The engine state: the PortfolioApp fields (currentSlide, totalSlides,
isAnimating, lines 6-8), the setupTouchNavigation closure variables
(lines 608-616), the pending setTimeout clears scheduled by
updateSliderPosition (line 914), and the two modelled style outputs of
the slider track.  containerWidth models sliderContainer.offsetWidth,
read live but constant while no resize happens. -/
structure SliderState where
  currentSlide : Int
  totalSlides : Int
  isAnimating : Bool
  pendingClears : List Nat
  trackTransform : Rat
  transitionEnabled : Bool
  startX : Rat
  startY : Rat
  currentX : Rat
  currentY : Rat
  isDragging : Bool
  isHorizontalSwipe : Bool
  startTime : Nat
  initialTransform : Rat
  isMobile : Bool
  containerWidth : Rat
deriving DecidableEq, Repr

/-- updateSliderPosition (lines 892-917): sets isAnimating, moves the
track to the current slide base offset, and schedules the flag reset
500 ms later.  Indicator class toggling is DOM-only and not modelled. -/
def updateSliderPosition (now : Nat) (s : SliderState) : SliderState :=
  { s with isAnimating := true
         , trackTransform := -(s.currentSlide : Rat) * 100
         , pendingClears := s.pendingClears ++ [now + 500] }

/-- nextSlide (lines 871-876). -/
def nextSlide (now : Nat) (s : SliderState) : SliderState :=
  if s.isAnimating = true ∨ s.totalSlides = 0 then s
  else updateSliderPosition now
    { s with currentSlide := jsMod (s.currentSlide + 1) s.totalSlides }

/-- previousSlide (lines 878-883). -/
def previousSlide (now : Nat) (s : SliderState) : SliderState :=
  if s.isAnimating = true ∨ s.totalSlides = 0 then s
  else updateSliderPosition now
    { s with currentSlide :=
        if s.currentSlide = 0 then s.totalSlides - 1 else s.currentSlide - 1 }

/-- goToSlide (lines 885-890).  Note observed in the source: the guard
checks only isAnimating, totalSlides being zero, and equality with the
current slide; there is no range check on slideIndex. -/
def goToSlide (now : Nat) (slideIndex : Int) (s : SliderState) : SliderState :=
  if s.isAnimating = true ∨ s.totalSlides = 0 ∨ slideIndex = s.currentSlide then s
  else updateSliderPosition now { s with currentSlide := slideIndex }

/-- touchstart handler (lines 633-648). -/
def onTouchStart (now : Nat) (x y : Rat) (touches : Nat) (s : SliderState) : SliderState :=
  if touches ≠ 1 then s
  else
    { s with startX := x, startY := y, currentX := x, currentY := y
           , startTime := now, isDragging := false, isHorizontalSwipe := false
           , initialTransform := -(s.currentSlide : Rat) * 100 }

/-- touchmove handler (lines 650-694): updates the current point, runs
the one-shot horizontal-swipe classification while neither isDragging nor
isHorizontalSwipe is set, then renders resisted visual feedback while a
horizontal drag is active. -/
def onTouchMove (x y : Rat) (touches : Nat) (s : SliderState) : SliderState :=
  if touches ≠ 1 then s
  else
    let s1 := { s with currentX := x, currentY := y }
    let diffX := x - s1.startX
    let diffY := y - s1.startY
    let s2 :=
      if s1.isDragging = false ∧ s1.isHorizontalSwipe = false then
        if |diffX| > 10 ∨ |diffY| > 10 then
          if |diffX| > |diffY| ∧ |diffX| > 15 then
            { s1 with isHorizontalSwipe := true, isDragging := true
                    , transitionEnabled := false }
          else { s1 with isHorizontalSwipe := false }
        else s1
      else s1
    if s2.isDragging = true ∧ s2.isHorizontalSwipe = true then
      let newTransform := s2.initialTransform + diffX / s2.containerWidth * 100
      { s2 with trackTransform := resistTransform (3 / 10) s2.totalSlides newTransform }
    else s2

/-- touchend handler (lines 696-740). -/
def onTouchEnd (now : Nat) (s : SliderState) : SliderState :=
  if s.isDragging = false ∨ s.isHorizontalSwipe = false then
    { s with isDragging := false, isHorizontalSwipe := false }
  else
    let diffX := s.currentX - s.startX
    let diffTime : Rat := ((now - s.startTime : Nat) : Rat)
    let s1 := { s with transitionEnabled := true }
    let s2 :=
      match releaseDecision Modality.touch diffX diffTime with
      | Decision.advance => nextSlide now s1
      | Decision.retreat => previousSlide now s1
      | Decision.cancel => updateSliderPosition now s1
    { s2 with isDragging := false, isHorizontalSwipe := false }

/-- mousedown handler (lines 743-754).  Note observed in the source: it
sets startX and startTime but does not reset currentX. -/
def onMouseDown (now : Nat) (x : Rat) (s : SliderState) : SliderState :=
  if s.isMobile = true then s
  else
    { s with startX := x, startTime := now, isDragging := true
           , initialTransform := -(s.currentSlide : Rat) * 100
           , transitionEnabled := false }

/-- mousemove handler on document (lines 757-781). -/
def onMouseMove (x : Rat) (s : SliderState) : SliderState :=
  if s.isDragging = false ∨ s.isMobile = true then s
  else
    let s1 := { s with currentX := x }
    let diffX := x - s1.startX
    if |diffX| > 5 then
      let newTransform := s1.initialTransform + diffX / s1.containerWidth * 100
      { s1 with trackTransform := resistTransform (1 / 5) s1.totalSlides newTransform }
    else s1

/-- mouseup handler on document (lines 783-819). -/
def onMouseUp (now : Nat) (s : SliderState) : SliderState :=
  if s.isDragging = false ∨ s.isMobile = true then s
  else
    let diffX := s.currentX - s.startX
    let diffTime : Rat := ((now - s.startTime : Nat) : Rat)
    let s1 := { s with transitionEnabled := true }
    let s2 :=
      match releaseDecision Modality.mouse diffX diffTime with
      | Decision.advance => nextSlide now s1
      | Decision.retreat => previousSlide now s1
      | Decision.cancel => updateSliderPosition now s1
    { s2 with isDragging := false }

/-- mouseleave handler (lines 822-829): resolves an active mouse drag as
a snap back. -/
def onMouseLeave (now : Nat) (s : SliderState) : SliderState :=
  if s.isDragging = true ∧ s.isMobile = false then
    { updateSliderPosition now { s with transitionEnabled := true } with
        isDragging := false }
  else s

/-- The platform events that can reach the engine.  touchcancel and
windowBlur are included so that their absence of effect can be stated:
setupTouchNavigation registers no listener for either on the slider. -/
inductive Ev
  | touchstart (x y : Rat) (touches : Nat)
  | touchmove (x y : Rat) (touches : Nat)
  | touchend
  | touchcancel
  | mousedown (x : Rat)
  | mousemove (x : Rat)
  | mouseup
  | mouseleave
  | windowBlur
  | keyArrowLeft
  | keyArrowRight
  | keyHome
  | keyEnd
  | indicatorClick (i : Int)
deriving DecidableEq, Repr

/-- Event dispatch: the keydown handler is lines 837-856, the indicator
click handlers line 560 (the indicator count comes from the DOM and is
not tied to totalSlides, so the clicked index is an arbitrary
nonnegative integer).  touchcancel and windowBlur have no registered
listener in setupTouchNavigation and leave the state unchanged. -/
def handle (now : Nat) (e : Ev) (s : SliderState) : SliderState :=
  match e with
  | Ev.touchstart x y c => onTouchStart now x y c s
  | Ev.touchmove x y c => onTouchMove x y c s
  | Ev.touchend => onTouchEnd now s
  | Ev.touchcancel => s
  | Ev.mousedown x => onMouseDown now x s
  | Ev.mousemove x => onMouseMove x s
  | Ev.mouseup => onMouseUp now s
  | Ev.mouseleave => onMouseLeave now s
  | Ev.windowBlur => s
  | Ev.keyArrowLeft => previousSlide now s
  | Ev.keyArrowRight => nextSlide now s
  | Ev.keyHome => goToSlide now 0 s
  | Ev.keyEnd => goToSlide now (s.totalSlides - 1) s
  | Ev.indicatorClick i => goToSlide now i s

/-- All setTimeout clears due by time now fire before the next event is
handled: each due callback sets isAnimating to false (line 915) and is
removed from the pending list. -/
def fireDue (now : Nat) (s : SliderState) : SliderState :=
  { s with isAnimating :=
         if s.pendingClears.any (fun t => t ≤ now) then false else s.isAnimating
         , pendingClears := s.pendingClears.filter (fun t => now < t) }

/-- One timed event: due timers fire, then the handler runs. -/
def step (now : Nat) (e : Ev) (s : SliderState) : SliderState :=
  handle now e (fireDue now s)

/-- Run a timed event trace (timestamps nondecreasing). -/
def run : List (Nat × Ev) → SliderState → SliderState
  | [], s => s
  | (t, e) :: rest, s => run rest (step t e s)

/-- The timestamps of the events of a trace whose handling changed
currentSlide (fireDue never changes currentSlide). -/
def mutationTimes : List (Nat × Ev) → SliderState → List Nat
  | [], _ => []
  | (t, e) :: rest, s =>
    let s1 := step t e s
    if s1.currentSlide ≠ s.currentSlide then t :: mutationTimes rest s1
    else mutationTimes rest s1

/-- The engine state right after initialization has settled: the
constructor zeroes currentSlide and isAnimating (lines 6-8),
initPortfolioSlider sets totalSlides from the DOM (line 570) and parks
the track at offset 0, the closure variables of setupTouchNavigation
start at 0 / false (lines 608-616), and the initial updateSliderPosition
lock has already been released by its timer. -/
def initState (total : Int) (width : Rat) (mobile : Bool) : SliderState :=
  { currentSlide := 0, totalSlides := total, isAnimating := false
  , pendingClears := [], trackTransform := 0, transitionEnabled := true
  , startX := 0, startY := 0, currentX := 0, currentY := 0
  , isDragging := false, isHorizontalSwipe := false, startTime := 0
  , initialTransform := 0, isMobile := mobile, containerWidth := width }

/-- Five slides on a 300 px wide container, touch device. -/
def initTouch : SliderState := initState 5 300 true

/-- Five slides on a 300 px wide container, desktop. -/
def initDesktop : SliderState := initState 5 300 false

/-- Axis of one gesture session as the specification describes it. -/
inductive Axis
  | undetermined
  | horizontal
  | vertical
deriving DecidableEq, Repr

/-- Modelled from the spec: the AxisClassifier contract of section 4.1,
applied to the cumulative (dx, dy) of one move sample: Undetermined
while max(|dx|, |dy|) is at most 10; once exceeded, Horizontal iff
|dx| > |dy| and |dx| > 15, else Vertical. -/
def classifySample (dx dy : Rat) : Axis :=
  if max |dx| |dy| ≤ 10 then Axis.undetermined
  else if |dx| > |dy| ∧ |dx| > 15 then Axis.horizontal
  else Axis.vertical

/-- advance() as exercised by the wrap claim: the lock release scheduled
by the previous transition has fired (the setTimeout callback of
line 914 ran) before each call, then nextSlide runs. -/
def advanceUnlocked (s : SliderState) : SliderState :=
  nextSlide 0 { s with isAnimating := false }

/-- A touch session whose first significant sample is vertical
(dx = 3, dy = 25) and whose second sample is horizontal-dominant
(cumulative dx = 50, dy = 25). -/
def verticalThenHorizontalTrace : List (Nat × Ev) :=
  [ (0, Ev.touchstart 0 0 1), (10, Ev.touchmove 3 25 1), (20, Ev.touchmove 50 25 1) ]

/-- A short horizontal touch drag of 20 px in 20 ms: below the 50 px
distance threshold, above the 0.3 px/ms velocity threshold but not
strictly above the 20 px minimum displacement, so it resolves Cancel. -/
def cancelDragSetupTrace : List (Nat × Ev) :=
  [ (0, Ev.touchstart 0 0 1), (10, Ev.touchmove 20 0 1) ]

/-- The engine just before the touchend of the cancelled drag. -/
def stCancel : SliderState := run cancelDragSetupTrace initTouch

/-- Two cancelled touch drags (each scheduling a 500 ms lock-release
timer) followed by two ArrowRight presses at 600 ms and 850 ms. -/
def staleTimerTrace : List (Nat × Ev) :=
  [ (0, Ev.touchstart 0 0 1), (10, Ev.touchmove 20 0 1), (20, Ev.touchend)
  , (300, Ev.touchstart 0 0 1), (310, Ev.touchmove 20 0 1), (320, Ev.touchend)
  , (600, Ev.keyArrowRight), (850, Ev.keyArrowRight) ]

/-- An active horizontal touch drag: start at x = 100, moved to x = 50. -/
def activeDragSetupTrace : List (Nat × Ev) :=
  [ (0, Ev.touchstart 100 0 1), (10, Ev.touchmove 50 0 1) ]

/-- The engine mid-drag, before any cancellation event. -/
def stActiveDrag : SliderState := run activeDragSetupTrace initTouch

/-- A mouse press at x = 100 released 10 ms later with no intervening
mousemove. -/
def motionlessPressTrace : List (Nat × Ev) :=
  [ (0, Ev.mousedown 100), (10, Ev.mouseup) ]

/-- A committed keyboard transition at t = 0 (locking until 500 ms),
then a horizontal touch drag of -100 px while the lock is held. -/
def lockedCommitSetupTrace : List (Nat × Ev) :=
  [ (0, Ev.keyArrowRight), (50, Ev.touchstart 100 0 1), (60, Ev.touchmove 0 0 1) ]

/-- The engine at the moment the locked drag releases: due timers of
time 70 have fired (none are due) and touchend is about to run. -/
def stLockedCommit : SliderState := fireDue 70 (run lockedCommitSetupTrace initTouch)

/-- A three-slide deck parked on its last slide with the lock clear. -/
def stLastSlide : SliderState := { initState 3 300 false with currentSlide := 2 }

/-- A desktop engine right after a mousedown at x = 100. -/
def stMouseDrag : SliderState := run [(0, Ev.mousedown 100)] initDesktop

/-- C2: for every completed gesture with displacement dx, elapsed time
dt > 0 and modality m, the release decision of the handlers (touch:
commit distance 50, commit velocity 0.3, minimum displacement 20; mouse:
80, 0.5, 30) equals the first-match rule of the spec: distance commit,
else velocity-with-minimum commit, else Cancel, with negative committing
dx giving Advance and positive giving Retreat. -/
theorem releaseDecision_matches_spec_rule (m : Modality) (dx dt : Rat) (hdt : 0 < dt) :
    commitDistance Modality.touch = 50 ∧ commitVelocity Modality.touch = 3 / 10 ∧
    minDisplacement Modality.touch = 20 ∧ commitDistance Modality.mouse = 80 ∧
    commitVelocity Modality.mouse = 1 / 2 ∧ minDisplacement Modality.mouse = 30 ∧
    releaseDecision m dx dt = releaseDecisionSpec m dx dt := by
  refine ⟨rfl, rfl, rfl, rfl, rfl, rfl, ?_⟩
  have hne0 : dt ≠ 0 := ne_of_gt hdt
  have hv : (velGT |dx| dt (commitVelocity m) = true ∧ |dx| > minDisplacement m) ↔
      (|dx| / dt > commitVelocity m ∧ |dx| > minDisplacement m) := by
    unfold velGT
    rw [if_neg hne0]
    simp
  have hcd : (0 : Rat) < commitDistance m := by cases m <;> norm_num [commitDistance]
  have hmd : (0 : Rat) < minDisplacement m := by cases m <;> norm_num [minDisplacement]
  unfold releaseDecision releaseDecisionSpec
  by_cases h1 : |dx| > commitDistance m
  · rw [if_pos h1, if_pos h1]
    have hne : dx ≠ 0 := by
      intro h0
      rw [h0, abs_zero] at h1
      exact absurd h1 (not_lt.mpr hcd.le)
    rcases hne.lt_or_lt with hneg | hpos
    · rw [if_neg (not_lt.mpr hneg.le), if_pos hneg]
    · rw [if_pos hpos, if_neg (not_lt.mpr hpos.le)]
  · rw [if_neg h1, if_neg h1]
    by_cases h2 : |dx| / dt > commitVelocity m ∧ |dx| > minDisplacement m
    · rw [if_pos (hv.mpr h2), if_pos h2]
      have hne : dx ≠ 0 := by
        intro h0
        rw [h0, abs_zero] at h2
        exact absurd h2.2 (not_lt.mpr hmd.le)
      rcases hne.lt_or_lt with hneg | hpos
      · rw [if_neg (not_lt.mpr hneg.le), if_pos hneg]
      · rw [if_pos hpos, if_neg (not_lt.mpr hpos.le)]
    · rw [if_neg (fun hh => h2 (hv.mp hh)), if_neg h2]

/-- Witness for the release-decision rule at the touch gesture of
spec scenario A scaled (dx = -60 px over dt = 200 ms). -/
theorem releaseDecision_matches_spec_rule_witness :
    (0 : Rat) < 200 ∧
    releaseDecision Modality.touch (-60) 200 = releaseDecisionSpec Modality.touch (-60) 200 := by
  have h := releaseDecision_matches_spec_rule Modality.touch (-60) 200 (by norm_num)
  exact ⟨by norm_num, h.2.2.2.2.2.2⟩

/-- C4: for every raw offset within the valid range the displayed
offset is the raw offset; past a bound the displayed offset is
bound + overshoot * factor, so the visual excess is overshoot * factor,
strictly less than the overshoot, and it is exactly the bound at zero
overshoot. -/
theorem resistTransform_bounded (factor : Rat) (total : Int) (raw o : Rat)
    (hf0 : 0 < factor) (hf1 : factor < 1) (ht : 1 ≤ total) (ho : 0 < o) :
    (-((total : Rat) - 1) * 100 ≤ raw → raw ≤ 0 → resistTransform factor total raw = raw) ∧
    (resistTransform factor total (0 + o) = 0 + o * factor ∧ o * factor < o) ∧
    resistTransform factor total (-((total : Rat) - 1) * 100 - o)
      = -((total : Rat) - 1) * 100 - o * factor ∧
    resistTransform factor total 0 = 0 ∧
    resistTransform factor total (-((total : Rat) - 1) * 100) = -((total : Rat) - 1) * 100 := by
  have htr : (1 : Rat) ≤ (total : Rat) := by exact_mod_cast ht
  have hmin : -((total : Rat) - 1) * 100 ≤ 0 := by nlinarith
  refine ⟨?_, ⟨?_, ?_⟩, ?_, ?_, ?_⟩
  · intro hlo hhi
    simp only [resistTransform]
    rw [if_neg (not_lt.mpr hhi), if_neg (not_lt.mpr hlo)]
  · simp only [resistTransform]
    have hpos : (0 : Rat) + o > 0 := by linarith
    rw [if_pos hpos]
    ring
  · exact mul_lt_of_lt_one_right ho hf1
  · simp only [resistTransform]
    have h1 : ¬ (-((total : Rat) - 1) * 100 - o > 0) := by nlinarith
    have h2 : -((total : Rat) - 1) * 100 - o < -((total : Rat) - 1) * 100 := by linarith
    rw [if_neg h1, if_pos h2]
    ring
  · simp only [resistTransform]
    rw [if_neg (lt_irrefl (0 : Rat)), if_neg (not_lt.mpr hmin)]
  · simp only [resistTransform]
    rw [if_neg (not_lt.mpr hmin), if_neg (lt_irrefl (-((total : Rat) - 1) * 100))]

/-- Witness for the resistance bound: touch factor 0.3, five slides,
raw offset -50 inside the range, overshoot 7. -/
theorem resistTransform_bounded_witness :
    ((0 : Rat) < 3 / 10 ∧ (3 : Rat) / 10 < 1 ∧ (1 : Int) ≤ 5 ∧ (0 : Rat) < 7) ∧
    ((-(((5 : Int) : Rat) - 1) * 100 ≤ -50 → (-50 : Rat) ≤ 0 →
        resistTransform (3 / 10) 5 (-50) = -50) ∧
      (resistTransform (3 / 10) 5 (0 + 7) = 0 + 7 * (3 / 10) ∧ (7 : Rat) * (3 / 10) < 7) ∧
      resistTransform (3 / 10) 5 (-(((5 : Int) : Rat) - 1) * 100 - 7)
        = -(((5 : Int) : Rat) - 1) * 100 - 7 * (3 / 10) ∧
      resistTransform (3 / 10) 5 0 = 0 ∧
      resistTransform (3 / 10) 5 (-(((5 : Int) : Rat) - 1) * 100)
        = -(((5 : Int) : Rat) - 1) * 100) := by
  refine ⟨⟨by norm_num, by norm_num, by norm_num, by norm_num⟩, ?_⟩
  exact resistTransform_bounded (3 / 10) 5 (-50) 7
    (by norm_num) (by norm_num) (by norm_num) (by norm_num)

/-- C1 counterexample: with three slides, index 0 and the lock clear,
goToSlide 5 sets currentSlide to the out-of-range value 5: the guard of
goToSlide (line 886) has no range check, so an out-of-range index is not
ignored and currentIndex leaves [0, totalCount-1]. -/
theorem goToSlide_out_of_range_mutates :
    (¬ (0 ≤ (5 : Int) ∧ (5 : Int) < 3)) ∧
    (initState 3 300 false).currentSlide = 0 ∧
    (goToSlide 0 5 (initState 3 300 false)).currentSlide = 5 := by
  refine ⟨by norm_num, rfl, ?_⟩
  norm_num [goToSlide, updateSliderPosition, initState]

/-- C1 (amended): goToSlide raises no error, but an index outside
[0, totalCount) is not ignored: whenever the lock is clear, the slide
count is nonzero and the index differs from the current one, goToSlide
sets currentSlide to that index, in or out of range, so currentIndex
does not always stay in [0, totalCount-1]. -/
theorem goToSlide_sets_any_index (now : Nat) (i : Int) (s : SliderState)
    (h1 : s.isAnimating = false) (h2 : s.totalSlides ≠ 0) (h3 : i ≠ s.currentSlide) :
    (goToSlide now i s).currentSlide = i := by
  unfold goToSlide
  rw [if_neg]
  · rfl
  · push_neg
    exact ⟨by simp [h1], h2, h3⟩

/-- Witness: goToSlide 7 from index 0 of a three-slide deck. -/
theorem goToSlide_sets_any_index_witness :
    ((initState 3 300 false).isAnimating = false ∧
      (initState 3 300 false).totalSlides ≠ 0 ∧
      (7 : Int) ≠ (initState 3 300 false).currentSlide) ∧
    (goToSlide 0 7 (initState 3 300 false)).currentSlide = 7 := by
  refine ⟨⟨rfl, by norm_num [initState], by norm_num [initState]⟩, ?_⟩
  exact goToSlide_sets_any_index 0 7 _ rfl
    (by norm_num [initState]) (by norm_num [initState])

/-- C3 counterexample: the first significant sample (dx = 3, dy = 25)
classifies Vertical under the classification contract, and the engine
records no horizontal ownership; but the very next sample (cumulative
dx = 50, dy = 25) re-runs the classification and the session becomes a
horizontal drag: a session classified Vertical is later reclassified
Horizontal. -/
theorem vertical_session_reclassified :
    classifySample 3 25 = Axis.vertical ∧
    (run (List.take 2 verticalThenHorizontalTrace) initTouch).isDragging = false ∧
    (run (List.take 2 verticalThenHorizontalTrace) initTouch).isHorizontalSwipe = false ∧
    (run verticalThenHorizontalTrace initTouch).isHorizontalSwipe = true ∧
    (run verticalThenHorizontalTrace initTouch).isDragging = true := by
  refine ⟨by norm_num [classifySample], ?_, ?_, ?_, ?_⟩ <;>
    norm_num [verticalThenHorizontalTrace, List.take, run, step, handle, fireDue,
      onTouchStart, onTouchMove, resistTransform, initTouch, initState]

/-- C3 (amended): a Horizontal classification is immutable for the rest
of the session: once isHorizontalSwipe and isDragging are set, no later
touchmove clears them.  A sample that resolves Vertical, however, leaves
the session indistinguishable from an unclassified one, so a later
sample may still reclassify it Horizontal. -/
theorem horizontal_classification_immutable (x y : Rat) (c : Nat) (s : SliderState)
    (hh : s.isHorizontalSwipe = true) (hd : s.isDragging = true) :
    (onTouchMove x y c s).isHorizontalSwipe = true ∧
    (onTouchMove x y c s).isDragging = true := by
  by_cases hc : c = 1
  · subst hc
    simp [onTouchMove, hd, hh]
  · simp [onTouchMove, hc, hd, hh]

/-- Witness: a further vertical-looking sample does not unlock the
horizontal drag that is already in progress. -/
theorem horizontal_classification_immutable_witness :
    (stActiveDrag.isHorizontalSwipe = true ∧ stActiveDrag.isDragging = true) ∧
    (onTouchMove 40 100 1 stActiveDrag).isHorizontalSwipe = true ∧
    (onTouchMove 40 100 1 stActiveDrag).isDragging = true := by
  have h1 : stActiveDrag.isHorizontalSwipe = true := by
    norm_num [stActiveDrag, activeDragSetupTrace, run, step, handle, fireDue,
      onTouchStart, onTouchMove, resistTransform, initTouch, initState]
  have h2 : stActiveDrag.isDragging = true := by
    norm_num [stActiveDrag, activeDragSetupTrace, run, step, handle, fireDue,
      onTouchStart, onTouchMove, resistTransform, initTouch, initState]
  exact ⟨⟨h1, h2⟩, horizontal_classification_immutable 40 100 1 stActiveDrag h1 h2⟩

/-- C5 counterexample: the 20 px / 20 ms drag resolves Cancel and the
index is unchanged, yet the snap back engages the transition lock:
updateSliderPosition (line 898) sets isAnimating unconditionally, so
isAnimating is true after the snap-back resolution. -/
theorem snapback_engages_lock :
    releaseDecision Modality.touch (stCancel.currentX - stCancel.startX)
        ((20 - stCancel.startTime : Nat) : Rat) = Decision.cancel ∧
    (step 20 Ev.touchend stCancel).currentSlide = stCancel.currentSlide ∧
    (step 20 Ev.touchend stCancel).isAnimating = true := by
  refine ⟨?_, ?_, ?_⟩ <;>
    norm_num [stCancel, cancelDragSetupTrace, run, step, handle, fireDue, onTouchStart,
      onTouchMove, onTouchEnd, releaseDecision, velGT, commitDistance, commitVelocity,
      minDisplacement, resistTransform, nextSlide, previousSlide, updateSliderPosition,
      jsMod, initTouch, initState]

/-- C5 (amended): when a horizontal touch drag resolves Cancel,
currentSlide is unchanged, but the snap back does engage the transition
lock: the resolution calls updateSliderPosition, which sets isAnimating
true (released 500 ms later). -/
theorem touch_cancel_resolution (now : Nat) (s : SliderState)
    (hd : s.isDragging = true) (hh : s.isHorizontalSwipe = true)
    (hc : releaseDecision Modality.touch (s.currentX - s.startX)
        ((now - s.startTime : Nat) : Rat) = Decision.cancel) :
    (onTouchEnd now s).currentSlide = s.currentSlide ∧
    (onTouchEnd now s).isAnimating = true := by
  simp [onTouchEnd, hd, hh, hc, updateSliderPosition]

/-- Witness: the cancelled 20 px / 20 ms drag. -/
theorem touch_cancel_resolution_witness :
    (stCancel.isDragging = true ∧ stCancel.isHorizontalSwipe = true ∧
      releaseDecision Modality.touch (stCancel.currentX - stCancel.startX)
        ((20 - stCancel.startTime : Nat) : Rat) = Decision.cancel) ∧
    (onTouchEnd 20 stCancel).currentSlide = stCancel.currentSlide ∧
    (onTouchEnd 20 stCancel).isAnimating = true := by
  have h1 : stCancel.isDragging = true := by
    norm_num [stCancel, cancelDragSetupTrace, run, step, handle, fireDue,
      onTouchStart, onTouchMove, resistTransform, initTouch, initState]
  have h2 : stCancel.isHorizontalSwipe = true := by
    norm_num [stCancel, cancelDragSetupTrace, run, step, handle, fireDue,
      onTouchStart, onTouchMove, resistTransform, initTouch, initState]
  have h3 : releaseDecision Modality.touch (stCancel.currentX - stCancel.startX)
      ((20 - stCancel.startTime : Nat) : Rat) = Decision.cancel := by
    norm_num [stCancel, cancelDragSetupTrace, run, step, handle, fireDue,
      onTouchStart, onTouchMove, releaseDecision, velGT, commitDistance,
      commitVelocity, minDisplacement, resistTransform, initTouch, initState]
  exact ⟨⟨h1, h2, h3⟩, touch_cancel_resolution 20 stCancel h1 h2 h3⟩

/-- One unlocked advance: currentSlide becomes (currentSlide + 1) mod
totalSlides and the slide count is unchanged. -/
theorem advanceUnlocked_currentSlide (s : SliderState)
    (h : s.totalSlides ≠ 0) (h0 : 0 ≤ s.currentSlide) :
    (advanceUnlocked s).currentSlide = (s.currentSlide + 1) % s.totalSlides ∧
    (advanceUnlocked s).totalSlides = s.totalSlides := by
  have hpos : 0 ≤ s.currentSlide + 1 := by omega
  simp [advanceUnlocked, nextSlide, updateSliderPosition, jsMod, h, hpos]

/-- Iterating unlocked advances adds the iteration count modulo the
slide count. -/
theorem advanceUnlocked_iterate (n : Nat) (hn : 1 ≤ n) (k : Nat) (s : SliderState)
    (ht : s.totalSlides = (n : Int)) (h0 : 0 ≤ s.currentSlide)
    (h1 : s.currentSlide < (n : Int)) :
    (advanceUnlocked^[k] s).currentSlide = (s.currentSlide + (k : Int)) % (n : Int) ∧
    (advanceUnlocked^[k] s).totalSlides = (n : Int) := by
  induction k generalizing s with
  | zero =>
    refine ⟨?_, by simpa using ht⟩
    simp only [Function.iterate_zero, id_eq, Nat.cast_zero, add_zero]
    exact (Int.emod_eq_of_lt h0 h1).symm
  | succ k ih =>
    have hn0 : (0 : Int) < (n : Int) := by exact_mod_cast hn
    have hne : s.totalSlides ≠ 0 := by rw [ht]; exact ne_of_gt hn0
    obtain ⟨hc, htot⟩ := advanceUnlocked_currentSlide s hne h0
    rw [ht] at hc htot
    rw [Function.iterate_succ_apply]
    have h0n : 0 ≤ (advanceUnlocked s).currentSlide := by
      rw [hc]; exact Int.emod_nonneg _ (ne_of_gt hn0)
    have h1n : (advanceUnlocked s).currentSlide < (n : Int) := by
      rw [hc]; exact Int.emod_lt_of_pos _ hn0
    obtain ⟨ha, hb⟩ := ih (advanceUnlocked s) htot h0n h1n
    refine ⟨?_, hb⟩
    rw [ha, hc, Int.emod_add_emod]
    congr 1
    push_cast
    ring

/-- C6: with the lock clear before each call, advance() sets the index
to (currentIndex + 1) mod n; n advances from index 0 return to index 0,
and a single advance from index n - 1 wraps to 0. -/
theorem advance_wraps (n : Nat) (hn : 1 ≤ n) (now : Nat) (s slast : SliderState)
    (h1 : s.totalSlides = (n : Int)) (h2 : s.currentSlide = 0)
    (h3 : slast.totalSlides = (n : Int)) (h4 : slast.currentSlide = (n : Int) - 1)
    (h5 : slast.isAnimating = false) :
    (advanceUnlocked^[n] s).currentSlide = 0 ∧
    (nextSlide now slast).currentSlide = 0 := by
  constructor
  · obtain ⟨ha, _⟩ := advanceUnlocked_iterate n hn n s h1 (by omega) (by omega)
    rw [ha, h2, zero_add, Int.emod_self]
  · have hn0 : (0 : Int) < (n : Int) := by exact_mod_cast hn
    have hne : slast.totalSlides ≠ 0 := by rw [h3]; exact ne_of_gt hn0
    have hguard : ¬ (slast.isAnimating = true ∨ slast.totalSlides = 0) := by
      simp [h5, hne]
    unfold nextSlide
    rw [if_neg hguard]
    show jsMod (slast.currentSlide + 1) slast.totalSlides = 0
    rw [h4, h3]
    unfold jsMod
    rw [if_pos (by omega : (0 : Int) ≤ (n : Int) - 1 + 1)]
    have hsum : (n : Int) - 1 + 1 = (n : Int) := by ring
    rw [hsum, Int.emod_self]

/-- Witness for the wrap law: three slides, three unlocked advances
from 0, and one advance from the last slide. -/
theorem advance_wraps_witness :
    (1 ≤ 3 ∧ (initState 3 300 false).totalSlides = ((3 : Nat) : Int) ∧
      (initState 3 300 false).currentSlide = 0 ∧
      stLastSlide.totalSlides = ((3 : Nat) : Int) ∧
      stLastSlide.currentSlide = ((3 : Nat) : Int) - 1 ∧
      stLastSlide.isAnimating = false) ∧
    (advanceUnlocked^[3] (initState 3 300 false)).currentSlide = 0 ∧
    (nextSlide 0 stLastSlide).currentSlide = 0 := by
  have hs1 : (initState 3 300 false).totalSlides = ((3 : Nat) : Int) := by
    norm_num [initState]
  have hs2 : (initState 3 300 false).currentSlide = 0 := rfl
  have hs3 : stLastSlide.totalSlides = ((3 : Nat) : Int) := by
    norm_num [stLastSlide, initState]
  have hs4 : stLastSlide.currentSlide = ((3 : Nat) : Int) - 1 := by
    norm_num [stLastSlide, initState]
  have hs5 : stLastSlide.isAnimating = false := rfl
  exact ⟨⟨by norm_num, hs1, hs2, hs3, hs4, hs5⟩,
    advance_wraps 3 (by norm_num) 0 (initState 3 300 false) stLastSlide
      hs1 hs2 hs3 hs4 hs5⟩

/-- C7 counterexample: with an active horizontal touch drag, neither
touchcancel nor window blur resolves the session: no such listener is
registered on the slider, so the drag state stays set and the visual
offset stays at the drag offset instead of returning to the base offset
of the current index. -/
theorem touchcancel_blur_not_resolved :
    stActiveDrag.isDragging = true ∧
    (step 20 Ev.touchcancel stActiveDrag).isDragging = true ∧
    (step 20 Ev.windowBlur stActiveDrag).isDragging = true ∧
    (step 20 Ev.touchcancel stActiveDrag).trackTransform ≠
      -(stActiveDrag.currentSlide : Rat) * 100 := by
  refine ⟨?_, ?_, ?_, ?_⟩ <;>
    norm_num [stActiveDrag, activeDragSetupTrace, run, step, handle, fireDue,
      onTouchStart, onTouchMove, resistTransform, initTouch, initState]

/-- C7 (amended): of the three cited cancellation paths only mouseleave
during a desktop drag resolves the session as a snap back (drag state
cleared, offset restored to the current base, index unchanged);
touchcancel and window blur have no registered listener on the slider
and leave the engine state entirely unchanged. -/
theorem cancellation_resolution (now : Nat) (s : SliderState)
    (hd : s.isDragging = true) (hm : s.isMobile = false) :
    (onMouseLeave now s).isDragging = false ∧
    (onMouseLeave now s).trackTransform = -(s.currentSlide : Rat) * 100 ∧
    (onMouseLeave now s).currentSlide = s.currentSlide ∧
    handle now Ev.touchcancel s = s ∧
    handle now Ev.windowBlur s = s := by
  refine ⟨?_, ?_, ?_, rfl, rfl⟩ <;> simp [onMouseLeave, hd, hm, updateSliderPosition]

/-- Witness: a mouseleave, a touchcancel and a blur against an engine
that is mid mouse-drag. -/
theorem cancellation_resolution_witness :
    (stMouseDrag.isDragging = true ∧ stMouseDrag.isMobile = false) ∧
    ((onMouseLeave 10 stMouseDrag).isDragging = false ∧
      (onMouseLeave 10 stMouseDrag).trackTransform =
        -(stMouseDrag.currentSlide : Rat) * 100 ∧
      (onMouseLeave 10 stMouseDrag).currentSlide = stMouseDrag.currentSlide ∧
      handle 10 Ev.touchcancel stMouseDrag = stMouseDrag ∧
      handle 10 Ev.windowBlur stMouseDrag = stMouseDrag) := by
  have h1 : stMouseDrag.isDragging = true := by
    norm_num [stMouseDrag, run, step, handle, fireDue, onMouseDown, initDesktop, initState]
  have h2 : stMouseDrag.isMobile = false := by
    norm_num [stMouseDrag, run, step, handle, fireDue, onMouseDown, initDesktop, initState]
  exact ⟨⟨h1, h2⟩, cancellation_resolution 10 stMouseDrag h1 h2⟩

/-- C9: mousedown sets startX and startTime but leaves currentX stale,
so a press released without any mousemove evaluates its displacement as
the stale currentX (the previous gesture final pointer x, or the
initial 0) minus the new startX; for the motionless press at x = 100 on
the freshly initialized desktop engine that displacement is -100, past
the 80 px mouse commit threshold, and the slide index changes. -/
theorem mousedown_stale_currentX (now : Nat) (x : Rat) (s : SliderState)
    (hm : s.isMobile = false) :
    (onMouseDown now x s).currentX = s.currentX ∧
    (onMouseDown now x s).startX = x ∧
    initDesktop.currentSlide = 0 ∧
    (run motionlessPressTrace initDesktop).currentSlide = 1 := by
  refine ⟨?_, ?_, rfl, ?_⟩
  · simp [onMouseDown, hm]
  · simp [onMouseDown, hm]
  · norm_num [motionlessPressTrace, run, step, handle, fireDue, onMouseDown, onMouseUp,
      releaseDecision, velGT, commitDistance, commitVelocity, minDisplacement,
      nextSlide, previousSlide, updateSliderPosition, jsMod, initDesktop, initState]

/-- Witness: the motionless press at x = 100 on the initial desktop
engine. -/
theorem mousedown_stale_currentX_witness :
    initDesktop.isMobile = false ∧
    ((onMouseDown 0 100 initDesktop).currentX = initDesktop.currentX ∧
      (onMouseDown 0 100 initDesktop).startX = 100 ∧
      initDesktop.currentSlide = 0 ∧
      (run motionlessPressTrace initDesktop).currentSlide = 1) := by
  exact ⟨rfl, mousedown_stale_currentX 0 100 initDesktop rfl⟩

/-- C10: a horizontal touch drag that ends with a committing decision
while isAnimating is true changes nothing: nextSlide and previousSlide
return early before calling updateSliderPosition, so currentSlide is
unchanged, no snap back runs and no lock release is scheduled, and the
displayed transform stays at the last drag offset. -/
theorem locked_commit_frozen (now : Nat) (s : SliderState)
    (hd : s.isDragging = true) (hh : s.isHorizontalSwipe = true)
    (ha : s.isAnimating = true)
    (hc : releaseDecision Modality.touch (s.currentX - s.startX)
        ((now - s.startTime : Nat) : Rat) ≠ Decision.cancel) :
    (onTouchEnd now s).currentSlide = s.currentSlide ∧
    (onTouchEnd now s).trackTransform = s.trackTransform ∧
    (onTouchEnd now s).pendingClears = s.pendingClears ∧
    (onTouchEnd now s).isAnimating = true := by
  rcases hdec : releaseDecision Modality.touch (s.currentX - s.startX)
      ((now - s.startTime : Nat) : Rat) with _ | _ | _
  · simp [onTouchEnd, hd, hh, hdec, nextSlide, ha]
  · simp [onTouchEnd, hd, hh, hdec, previousSlide, ha]
  · exact absurd hdec hc

/-- Witness: a -100 px drag released at t = 70 while the lock from the
keyboard commit at t = 0 is still held. -/
theorem locked_commit_frozen_witness :
    (stLockedCommit.isDragging = true ∧ stLockedCommit.isHorizontalSwipe = true ∧
      stLockedCommit.isAnimating = true ∧
      releaseDecision Modality.touch (stLockedCommit.currentX - stLockedCommit.startX)
        ((70 - stLockedCommit.startTime : Nat) : Rat) ≠ Decision.cancel) ∧
    ((onTouchEnd 70 stLockedCommit).currentSlide = stLockedCommit.currentSlide ∧
      (onTouchEnd 70 stLockedCommit).trackTransform = stLockedCommit.trackTransform ∧
      (onTouchEnd 70 stLockedCommit).pendingClears = stLockedCommit.pendingClears ∧
      (onTouchEnd 70 stLockedCommit).isAnimating = true) := by
  have h1 : stLockedCommit.isDragging = true := by
    norm_num [stLockedCommit, lockedCommitSetupTrace, run, step, handle, fireDue,
      onTouchStart, onTouchMove, nextSlide, previousSlide, updateSliderPosition,
      jsMod, resistTransform, initTouch, initState]
  have h2 : stLockedCommit.isHorizontalSwipe = true := by
    norm_num [stLockedCommit, lockedCommitSetupTrace, run, step, handle, fireDue,
      onTouchStart, onTouchMove, nextSlide, previousSlide, updateSliderPosition,
      jsMod, resistTransform, initTouch, initState]
  have h3 : stLockedCommit.isAnimating = true := by
    norm_num [stLockedCommit, lockedCommitSetupTrace, run, step, handle, fireDue,
      onTouchStart, onTouchMove, nextSlide, previousSlide, updateSliderPosition,
      jsMod, resistTransform, initTouch, initState]
  have h4 : releaseDecision Modality.touch (stLockedCommit.currentX - stLockedCommit.startX)
      ((70 - stLockedCommit.startTime : Nat) : Rat) ≠ Decision.cancel := by
    norm_num [stLockedCommit, lockedCommitSetupTrace, run, step, handle, fireDue,
      onTouchStart, onTouchMove, nextSlide, previousSlide, updateSliderPosition,
      jsMod, resistTransform, releaseDecision, velGT, commitDistance, commitVelocity,
      minDisplacement, initTouch, initState]
    decide
  exact ⟨⟨h1, h2, h3, h4⟩, locked_commit_frozen 70 stLockedCommit h1 h2 h3 h4⟩

/-- C8 counterexample: the two cancelled drags schedule uncancelled
lock-release timers at 520 ms and 820 ms; the ArrowRight at 600 ms
commits a mutation and schedules its own release at 1100 ms, but the
stale 820 ms timer clears the lock early, so a second mutation lands at
850 ms: two index mutations only 250 ms apart, and isAnimating is false
at 850 ms even though that instant lies inside the 500 ms window that
follows the committed mutation at 600 ms. -/
theorem mutation_window_violated :
    mutationTimes staleTimerTrace initTouch = [600, 850] ∧
    850 - 600 < 500 ∧
    (fireDue 850 (run (List.take 7 staleTimerTrace) initTouch)).isAnimating = false := by
  refine ⟨?_, by norm_num, ?_⟩ <;>
    norm_num [staleTimerTrace, List.take, mutationTimes, run, step, handle, fireDue,
      onTouchStart, onTouchMove, onTouchEnd, releaseDecision, velGT, commitDistance,
      commitVelocity, minDisplacement, resistTransform, nextSlide, previousSlide,
      updateSliderPosition, jsMod, initTouch, initState]

/-- nextSlide changes the index only when the lock is clear, and then
sets the lock and schedules its release 500 ms later. -/
theorem nextSlide_mutation (now : Nat) (s : SliderState)
    (h : (nextSlide now s).currentSlide ≠ s.currentSlide) :
    s.isAnimating = false ∧ (nextSlide now s).isAnimating = true ∧
    (now + 500) ∈ (nextSlide now s).pendingClears := by
  by_cases hg : s.isAnimating = true ∨ s.totalSlides = 0
  · exfalso
    apply h
    simp only [nextSlide, if_pos hg]
  · have ha : s.isAnimating = false := by
      cases hb : s.isAnimating
      · rfl
      · exact absurd (Or.inl hb) hg
    refine ⟨ha, ?_, ?_⟩ <;> simp [nextSlide, if_neg hg, updateSliderPosition]

/-- previousSlide changes the index only when the lock is clear, and
then sets the lock and schedules its release 500 ms later. -/
theorem previousSlide_mutation (now : Nat) (s : SliderState)
    (h : (previousSlide now s).currentSlide ≠ s.currentSlide) :
    s.isAnimating = false ∧ (previousSlide now s).isAnimating = true ∧
    (now + 500) ∈ (previousSlide now s).pendingClears := by
  by_cases hg : s.isAnimating = true ∨ s.totalSlides = 0
  · exfalso
    apply h
    simp only [previousSlide, if_pos hg]
  · have ha : s.isAnimating = false := by
      cases hb : s.isAnimating
      · rfl
      · exact absurd (Or.inl hb) hg
    refine ⟨ha, ?_, ?_⟩ <;> simp [previousSlide, if_neg hg, updateSliderPosition]

/-- goToSlide changes the index only when the lock is clear, and then
sets the lock and schedules its release 500 ms later. -/
theorem goToSlide_mutation (now : Nat) (i : Int) (s : SliderState)
    (h : (goToSlide now i s).currentSlide ≠ s.currentSlide) :
    s.isAnimating = false ∧ (goToSlide now i s).isAnimating = true ∧
    (now + 500) ∈ (goToSlide now i s).pendingClears := by
  by_cases hg : s.isAnimating = true ∨ s.totalSlides = 0 ∨ i = s.currentSlide
  · exfalso
    apply h
    simp only [goToSlide, if_pos hg]
  · have ha : s.isAnimating = false := by
      cases hb : s.isAnimating
      · rfl
      · exact absurd (Or.inl hb) hg
    refine ⟨ha, ?_, ?_⟩ <;> simp [goToSlide, if_neg hg, updateSliderPosition]

/-- touchstart never changes the index. -/
theorem onTouchStart_currentSlide (now : Nat) (x y : Rat) (c : Nat) (s : SliderState) :
    (onTouchStart now x y c s).currentSlide = s.currentSlide := by
  simp only [onTouchStart]
  split <;> rfl

/-- touchmove never changes the index. -/
theorem onTouchMove_currentSlide (x y : Rat) (c : Nat) (s : SliderState) :
    (onTouchMove x y c s).currentSlide = s.currentSlide := by
  simp only [onTouchMove]
  repeat' split
  all_goals rfl

/-- mousedown never changes the index. -/
theorem onMouseDown_currentSlide (now : Nat) (x : Rat) (s : SliderState) :
    (onMouseDown now x s).currentSlide = s.currentSlide := by
  simp only [onMouseDown]
  split <;> rfl

/-- mousemove never changes the index. -/
theorem onMouseMove_currentSlide (x : Rat) (s : SliderState) :
    (onMouseMove x s).currentSlide = s.currentSlide := by
  simp only [onMouseMove]
  repeat' split
  all_goals rfl

/-- mouseleave never changes the index. -/
theorem onMouseLeave_currentSlide (now : Nat) (s : SliderState) :
    (onMouseLeave now s).currentSlide = s.currentSlide := by
  simp only [onMouseLeave, updateSliderPosition]
  split <;> rfl

/-- A touchend that changes the index does so with the lock clear, sets
the lock and schedules its release 500 ms later. -/
theorem onTouchEnd_mutation (now : Nat) (s : SliderState)
    (h : (onTouchEnd now s).currentSlide ≠ s.currentSlide) :
    s.isAnimating = false ∧ (onTouchEnd now s).isAnimating = true ∧
    (now + 500) ∈ (onTouchEnd now s).pendingClears := by
  by_cases hg : s.isDragging = false ∨ s.isHorizontalSwipe = false
  · exfalso
    apply h
    simp only [onTouchEnd, if_pos hg]
  · simp only [onTouchEnd, if_neg hg] at h ⊢
    rcases hdec : releaseDecision Modality.touch (s.currentX - s.startX)
        ((now - s.startTime : Nat) : Rat) with _ | _ | _
    · simp only [hdec] at h ⊢
      exact nextSlide_mutation now { s with transitionEnabled := true } h
    · simp only [hdec] at h ⊢
      exact previousSlide_mutation now { s with transitionEnabled := true } h
    · simp only [hdec] at h
      exact absurd rfl h

/-- A mouseup that changes the index does so with the lock clear, sets
the lock and schedules its release 500 ms later. -/
theorem onMouseUp_mutation (now : Nat) (s : SliderState)
    (h : (onMouseUp now s).currentSlide ≠ s.currentSlide) :
    s.isAnimating = false ∧ (onMouseUp now s).isAnimating = true ∧
    (now + 500) ∈ (onMouseUp now s).pendingClears := by
  by_cases hg : s.isDragging = false ∨ s.isMobile = true
  · exfalso
    apply h
    simp only [onMouseUp, if_pos hg]
  · simp only [onMouseUp, if_neg hg] at h ⊢
    rcases hdec : releaseDecision Modality.mouse (s.currentX - s.startX)
        ((now - s.startTime : Nat) : Rat) with _ | _ | _
    · simp only [hdec] at h ⊢
      exact nextSlide_mutation now { s with transitionEnabled := true } h
    · simp only [hdec] at h ⊢
      exact previousSlide_mutation now { s with transitionEnabled := true } h
    · simp only [hdec] at h
      exact absurd rfl h

/-- C8 (amended): every event that mutates currentSlide finds
isAnimating false at that instant (after the due timer callbacks have
run), leaves isAnimating true, and schedules a lock release 500 ms
later.  The full 500 ms mutual-exclusion window of the original claim
does not hold, because a stale timer scheduled by an earlier snap back
can clear isAnimating before the window of the latest mutation ends. -/
theorem mutation_lock_discipline (now : Nat) (e : Ev) (s : SliderState)
    (h : (step now e s).currentSlide ≠ s.currentSlide) :
    (fireDue now s).isAnimating = false ∧
    (step now e s).isAnimating = true ∧
    (now + 500) ∈ (step now e s).pendingClears := by
  cases e with
  | touchstart x y c => exact absurd (onTouchStart_currentSlide now x y c (fireDue now s)) h
  | touchmove x y c => exact absurd (onTouchMove_currentSlide x y c (fireDue now s)) h
  | touchend => exact onTouchEnd_mutation now (fireDue now s) h
  | touchcancel => exact absurd rfl h
  | mousedown x => exact absurd (onMouseDown_currentSlide now x (fireDue now s)) h
  | mousemove x => exact absurd (onMouseMove_currentSlide x (fireDue now s)) h
  | mouseup => exact onMouseUp_mutation now (fireDue now s) h
  | mouseleave => exact absurd (onMouseLeave_currentSlide now (fireDue now s)) h
  | windowBlur => exact absurd rfl h
  | keyArrowLeft => exact previousSlide_mutation now (fireDue now s) h
  | keyArrowRight => exact nextSlide_mutation now (fireDue now s) h
  | keyHome => exact goToSlide_mutation now 0 (fireDue now s) h
  | keyEnd => exact goToSlide_mutation now ((fireDue now s).totalSlides - 1) (fireDue now s) h
  | indicatorClick i => exact goToSlide_mutation now i (fireDue now s) h

/-- Witness: the ArrowRight commit at t = 0 on the fresh engine. -/
theorem mutation_lock_discipline_witness :
    (step 0 Ev.keyArrowRight initTouch).currentSlide ≠ initTouch.currentSlide ∧
    ((fireDue 0 initTouch).isAnimating = false ∧
      (step 0 Ev.keyArrowRight initTouch).isAnimating = true ∧
      (0 + 500) ∈ (step 0 Ev.keyArrowRight initTouch).pendingClears) := by
  have h : (step 0 Ev.keyArrowRight initTouch).currentSlide ≠ initTouch.currentSlide := by
    norm_num [step, handle, fireDue, nextSlide, updateSliderPosition, jsMod,
      initTouch, initState]
  exact ⟨h, mutation_lock_discipline 0 Ev.keyArrowRight initTouch h⟩

end Gofie
